import Mathlib

/-!
Verification development for the Omada controller API client in src/omada.py.

The client is a thin adapter: each method builds one HTTP request, sends it over
a persistent session, and unwraps a JSON response envelope of the shape
with fields errorCode, msg (optional) and result (optional).  The network and
the clock are external, so the embedding passes them in explicitly: every
request-making function receives the current clock reading and the HTTP
response the server would produce, and returns both the request it issued and
the outcome (a value or a raised exception).
-/

/-- JSON values as produced by response.json().  Since the Python json decoder
maps JSON null to Python None, the constructor Json.null also stands for
Python None wherever a parsed value flows through the client. -/
inductive Json where
  | null
  | bool (b : Bool)
  | num (n : Int)
  | str (s : String)
  | arr (elems : List Json)
  | obj (fields : List (String × Json))

/-- Attribute record of an OmadaError exception instance, as set by
OmadaError.__init__ in src/omada.py: errorCode defaults to 0 and msg to None. -/
structure OmadaErrorData where
  errorCode : Json
  msg : Option String

/-- The exceptions the embedded code can raise: TypeError, KeyError, the
transport error raised by response.raise_for_status on a 4xx or 5xx status,
and the OmadaError domain exception. -/
inductive PyExc where
  | typeError (m : String)
  | keyError (k : String)
  | httpError (status : Nat)
  | omada (e : OmadaErrorData)

/-- First binding of a key in a field list.  Python dict keys are unique, so
this is exactly dict lookup on the lists the client builds. -/
def lookupKey (k : String) : List (String × Json) → Option Json
  | [] => none
  | (k2, v) :: rest => if k2 = k then some v else lookupKey k rest

/-- Lookup of a string key on a Json value: the bound value when the value is
an object holding the key, and none otherwise. -/
def Json.getKey : Json → String → Option Json
  | .obj fs, k => lookupKey k fs
  | _, _ => none

/-- Python subscripting json[k] with a string key: KeyError when a dict lacks
the key, TypeError on every value that does not support string subscripts
(None, booleans, numbers, strings and lists). -/
def pyGetItem (v : Json) (k : String) : Except PyExc Json :=
  match v with
  | .obj fs =>
    match lookupKey k fs with
    | some x => .ok x
    | none => .error (.keyError k)
  | .null => .error (.typeError "NoneType object is not subscriptable")
  | _ => .error (.typeError "value does not support string subscripts")

/-- Whether a field list binds the key (Python key-in-dict test). -/
def hasKeyB (k : String) (fs : List (String × Json)) : Bool :=
  fs.any (fun p => p.1 == k)

/-- Python equality of a parsed JSON value with the string s: only an equal
string compares equal; no exception is raised. -/
def Json.eqStr (v : Json) (s : String) : Bool :=
  match v with
  | .str t => t == s
  | _ => false

/-- Whether the first character list is an initial segment of the second. -/
def chStarts : List Char → List Char → Bool
  | [], _ => true
  | _ :: _, [] => false
  | a :: as, b :: bs => a == b && chStarts as bs

/-- Whether the needle occurs contiguously inside the haystack (Python
substring membership on strings). -/
def chHas (needle : List Char) : List Char → Bool
  | [] => chStarts needle []
  | b :: bs => chStarts needle (b :: bs) || chHas needle bs

/-- The Python membership test (k in v) for a string k: key membership on
dicts, element equality on lists, substring test on strings, and TypeError on
values that are not containers (None, booleans, numbers). -/
def pyContains (v : Json) (k : String) : Except PyExc Bool :=
  match v with
  | .obj fs => .ok (hasKeyB k fs)
  | .arr xs => .ok (xs.any (fun x => x.eqStr k))
  | .str s => .ok (chHas k.toList s.toList)
  | _ => .error (.typeError "argument is not a container")

/-- Python del v[k] with a string key: removes the binding of k from a dict
(call sites guard the del with a membership test, so the KeyError case of del
on dicts never arises there; on unique-keyed lists the filter removes exactly
that one binding), and TypeError on every other value. -/
def pyDelKey (v : Json) (k : String) : Except PyExc Json :=
  match v with
  | .obj fs => .ok (.obj (fs.filter (fun p => !(p.1 == k))))
  | _ => .error (.typeError "object does not support item deletion")

/-- The Python comparison x == 0 on a parsed JSON value: the integer 0 and the
boolean False compare equal to 0, everything else compares unequal. -/
def pyEqZero : Json → Bool
  | .num n => n == 0
  | .bool b => !b
  | _ => false

/-- OmadaError.__init__(json) from src/omada.py: errorCode defaults to 0 and is
overwritten by the errorCode field of the envelope when present; the msg
attribute is set to the msg of the envelope surrounded by double quote
characters when present (the source concatenates a quote on each side), and a
non-string msg makes that concatenation raise TypeError.  A Python None
argument raises TypeError. -/
def OmadaErrorData.init (j : Json) : Except PyExc OmadaErrorData :=
  match j with
  | .null => .error (.typeError "json cannot be None")
  | j =>
    match pyContains j "errorCode" with
    | .error e => .error e
    | .ok hasEC =>
      match (if hasEC then pyGetItem j "errorCode" else .ok (Json.num 0)) with
      | .error e => .error e
      | .ok ec =>
        match pyContains j "msg" with
        | .error e => .error e
        | .ok false => .ok ⟨ec, none⟩
        | .ok true =>
          match pyGetItem j "msg" with
          | .error e => .error e
          | .ok (.str s) => .ok ⟨ec, some ("\"" ++ s ++ "\"")⟩
          | .ok _ => .error (.typeError "can only concatenate str to str")

/-- timestamp() from src/omada.py: int(datetime.utcnow().timestamp() * 1000).
The clock reading is modelled at microsecond resolution (the precision of
datetime), so multiplying the float second count by 1000 and truncating to int
yields the nonnegative integer division of the microsecond count by 1000. -/
def timestamp (clockMicros : Nat) : Nat :=
  clockMicros / 1000

/-- The attributes of an Omada instance.  The config field holds the parsed
[omada] section of the configuration file when one was loaded at construction
(None when an explicit baseurl was supplied).  The token attribute starts as
None and receives whatever value login finds in the result of its envelope. -/
structure Omada where
  config : Option (List (String × String))
  baseurl : String
  site : String
  verify : Bool
  warnings : Bool
  token : Option Json

/-- HTTP verb of a request issued through the session. -/
inductive Method where
  | get
  | post
  | patch

/-- A request as handed to the session: verb, full URL, and the three keyword
arguments params, data and json of the Python call. -/
structure Request where
  method : Method
  url : String
  params : Option (List (String × Json))
  data : Option Json
  jsonBody : Option Json

/-- The response the server produces: HTTP status and parsed JSON body. -/
structure HttpResponse where
  status : Nat
  body : Json

/-- Omada.ApiPath. -/
def Omada.ApiPath : String := "/api/v2"

/-- Omada.url_for: baseurl + ApiPath + path. -/
def Omada.url_for (om : Omada) (path : String) : String :=
  om.baseurl ++ Omada.ApiPath ++ path

/-- json[result] if result in json else None: the value of the success branch
shared by the three request primitives. -/
def resultOrNone (body : Json) : Json :=
  match body.getKey "result" with
  | some r => r
  | none => Json.null

/-- The envelope handling shared verbatim by Omada.get, Omada.post and
Omada.patch: parse the body, return the result field (None when absent) when
errorCode compares equal to 0, and raise OmadaError(json) otherwise. -/
def handleResponse (body : Json) : Except PyExc Json :=
  match pyGetItem body "errorCode" with
  | .error e => .error e
  | .ok ec =>
    if pyEqZero ec then
      .ok (resultOrNone body)
    else
      match OmadaErrorData.init body with
      | .ok e => .error (.omada e)
      | .error ex => .error ex

/-- The request primitive whose Python body appears three times, identically up
to the HTTP verb, as Omada.get, Omada.post and Omada.patch: when no explicit
params are given and the stored token is not None, inject the params dict with
the token and the millisecond timestamp under the underscore key; issue the
request; raise for a 4xx or 5xx status; unwrap the envelope.  The clock reading
and the response are the external inputs of the call. -/
def sendRequest (om : Omada) (m : Method) (path : String)
    (params : Option (List (String × Json))) (data jsonArg : Option Json)
    (clock : Nat) (resp : HttpResponse) : Request × Except PyExc Json :=
  let params2 : Option (List (String × Json)) :=
    match params, om.token with
    | none, some tok => some [("token", tok), ("_", Json.num (timestamp clock))]
    | p, _ => p
  (⟨m, om.url_for path, params2, data, jsonArg⟩,
   if 400 ≤ resp.status then .error (.httpError resp.status)
   else handleResponse resp.body)

/-- Omada.get (src/omada.py lines 93-105). -/
def Omada.get (om : Omada) (path : String) (params : Option (List (String × Json)))
    (data jsonArg : Option Json) (clock : Nat) (resp : HttpResponse) :
    Request × Except PyExc Json :=
  sendRequest om .get path params data jsonArg clock resp

/-- Omada.post (src/omada.py lines 110-122, same body as get). -/
def Omada.post (om : Omada) (path : String) (params : Option (List (String × Json)))
    (data jsonArg : Option Json) (clock : Nat) (resp : HttpResponse) :
    Request × Except PyExc Json :=
  sendRequest om .post path params data jsonArg clock resp

/-- Omada.patch (src/omada.py lines 127-139, same body as get). -/
def Omada.patch (om : Omada) (path : String) (params : Option (List (String × Json)))
    (data jsonArg : Option Json) (clock : Nat) (resp : HttpResponse) :
    Request × Except PyExc Json :=
  sendRequest om .patch path params data jsonArg clock resp

/-- ConfigParser section lookup section.get(option): the stored string when the
option is present, None otherwise (the default fallback of SectionProxy.get). -/
def cfgGet (cfg : List (String × String)) (k : String) : Option String :=
  match cfg with
  | [] => none
  | (k2, v) :: rest => if k2 = k then some v else cfgGet rest k

/-- JSON serialization of a Python optional string: None becomes JSON null. -/
def optStr : Option String → Json
  | none => Json.null
  | some s => Json.str s

/-- Omada.login (src/omada.py lines 144-157): when both arguments are None the
credentials are read from the config (TypeError when no config was loaded;
a missing option yields None, which is sent as JSON null); the credential dict
is posted to /login; the token field of the result is stored on the instance;
the full result is returned.  The returned pair holds the issued request (none
when the TypeError fires before any request) and the outcome together with the
updated instance. -/
def Omada.login (om : Omada) (username password : Option String)
    (clock : Nat) (resp : HttpResponse) :
    Option Request × Except PyExc (Omada × Json) :=
  let creds : Except PyExc (Option String × Option String) :=
    match username, password with
    | none, none =>
      match om.config with
      | none => .error (.typeError "username and password cannot be None")
      | some cfg => .ok (cfgGet cfg "username", cfgGet cfg "password")
    | u, p => .ok (u, p)
  match creds with
  | .error e => (none, .error e)
  | .ok (u, p) =>
    let call := om.post "/login" none none
      (some (Json.obj [("username", optStr u), ("password", optStr p)])) clock resp
    (some call.1,
      match call.2 with
      | .error e => .error e
      | .ok result =>
        match pyGetItem result "token" with
        | .error e => .error e
        | .ok tok => .ok ({ om with token := some tok }, result))

/-- Omada.logout (src/omada.py lines 162-163): return self.post of /logout. -/
def Omada.logout (om : Omada) (clock : Nat) (resp : HttpResponse) :
    Request × Except PyExc Json :=
  om.post "/logout" none none none clock resp

/-- Omada.getLoginStatus (src/omada.py lines 168-169). -/
def Omada.getLoginStatus (om : Omada) (clock : Nat) (resp : HttpResponse) :
    Request × Except PyExc Json :=
  om.get "/loginStatus" none none none clock resp

/-- Omada.getCurrentUser (src/omada.py lines 174-175). -/
def Omada.getCurrentUser (om : Omada) (clock : Nat) (resp : HttpResponse) :
    Request × Except PyExc Json :=
  om.get "/users/current" none none none clock resp

/-- Group type code "IP Group". -/
def Omada.IPGroup : Int := 0

/-- Group type code "IP-Port Group". -/
def Omada.PortGroup : Int := 1

/-- Group type code "MAC Group". -/
def Omada.MACGroup : Int := 2

/-- The default-site fallback shared by the accessor methods: if site is None,
site = self.site. -/
def resolveSite (om : Omada) (site : Option String) : String :=
  match site with
  | none => om.site
  | some s => s

/-- return result[data]: the extra unwrapping level applied by getSiteGroups,
getWirelessGroups and getWirelessNetworks to the result of the envelope. -/
def unwrapData (out : Except PyExc Json) : Except PyExc Json :=
  match out with
  | .error e => .error e
  | .ok result => pyGetItem result "data"

/-- Omada.getSiteGroups (src/omada.py lines 185-195): GET the groups path (with
the type code appended when given) and return result[data]. -/
def Omada.getSiteGroups (om : Omada) (site : Option String) (ty : Option Int)
    (clock : Nat) (resp : HttpResponse) : Request × Except PyExc Json :=
  let path := match ty with
    | none => "/sites/" ++ resolveSite om site ++ "/setting/profiles/groups"
    | some t => "/sites/" ++ resolveSite om site ++ "/setting/profiles/groups/" ++ toString t
  let call := om.get path none none none clock resp
  (call.1, unwrapData call.2)

/-- Omada.getPortalCandidates (src/omada.py lines 202-207). -/
def Omada.getPortalCandidates (om : Omada) (site : Option String)
    (clock : Nat) (resp : HttpResponse) : Request × Except PyExc Json :=
  om.get ("/sites/" ++ resolveSite om site ++ "/setting/portal/candidates")
    none none none clock resp

/-- Omada.getRadiusProfiles (src/omada.py lines 212-217). -/
def Omada.getRadiusProfiles (om : Omada) (site : Option String)
    (clock : Nat) (resp : HttpResponse) : Request × Except PyExc Json :=
  om.get ("/sites/" ++ resolveSite om site ++ "/setting/radiusProfiles")
    none none none clock resp

/-- Omada.getScenarios (src/omada.py lines 222-223). -/
def Omada.getScenarios (om : Omada) (clock : Nat) (resp : HttpResponse) :
    Request × Except PyExc Json :=
  om.get "/scenarios" none none none clock resp

/-- Omada.getSiteDevices (src/omada.py lines 228-233). -/
def Omada.getSiteDevices (om : Omada) (site : Option String)
    (clock : Nat) (resp : HttpResponse) : Request × Except PyExc Json :=
  om.get ("/sites/" ++ resolveSite om site ++ "/devices") none none none clock resp

/-- Omada.getSiteClients (src/omada.py lines 238-241).  In the source the body
of this method is indented at the same level as its def header, which the
Python parser rejects with an IndentationError when the module is imported;
this definition models the evident intent, namely the same body indented one
level deeper, as every sibling method is. -/
def Omada.getSiteClients (om : Omada) (site : Option String)
    (clock : Nat) (resp : HttpResponse) : Request × Except PyExc Json :=
  om.get ("/sites/" ++ resolveSite om site
      ++ "/clients?currentPageSize=999&currentPage=1&filters.active=true")
    none none none clock resp

/-- The beaconControl removal shared by getSiteSettings and setSiteSettings:
if beaconControl in x, del x[beaconControl].  Returns the value after the del;
the warning emission has no effect on values and is not modelled. -/
def stripBeaconControl (x : Json) : Except PyExc Json :=
  match pyContains x "beaconControl" with
  | .error e => .error e
  | .ok true => pyDelKey x "beaconControl"
  | .ok false => .ok x

/-- Omada.getSiteSettings (src/omada.py lines 246-259): GET the settings and
strip the beaconControl key from the result before returning it. -/
def Omada.getSiteSettings (om : Omada) (site : Option String)
    (clock : Nat) (resp : HttpResponse) : Request × Except PyExc Json :=
  let call := om.get ("/sites/" ++ resolveSite om site ++ "/setting")
    none none none clock resp
  (call.1,
   match call.2 with
   | .error e => .error e
   | .ok result => stripBeaconControl result)

/-- A store of Python objects addressed by identity: the caller passes the
settings dict by reference, so a del performed on it is visible through the
same address after the call. -/
abbrev Store := Nat → Option Json

/-- Omada.setSiteSettings (src/omada.py lines 264-275): strip the beaconControl
key from the caller-supplied settings dict (an in-place del on the referenced
object), then PATCH the settings path with the stripped dict as JSON body.
Returns the updated store, the issued request (none when the strip raised
before any request) and the outcome. -/
def Omada.setSiteSettings (om : Omada) (store : Store) (settingsRef : Nat)
    (site : Option String) (clock : Nat) (resp : HttpResponse) :
    Store × Option Request × Except PyExc Json :=
  match store settingsRef with
  | none => (store, none, .error (.typeError "dangling reference"))
  | some settings =>
    match pyContains settings "beaconControl" with
    | .error e => (store, none, .error e)
    | .ok true =>
      match pyDelKey settings "beaconControl" with
      | .error e => (store, none, .error e)
      | .ok settings2 =>
        let store2 : Store := fun a => if a = settingsRef then some settings2 else store a
        let call := om.patch ("/sites/" ++ resolveSite om site ++ "/setting")
          none none (some settings2) clock resp
        (store2, some call.1, call.2)
    | .ok false =>
      let call := om.patch ("/sites/" ++ resolveSite om site ++ "/setting")
        none none (some settings) clock resp
      (store, some call.1, call.2)

/-- Omada.getTimeRanges (src/omada.py lines 280-285). -/
def Omada.getTimeRanges (om : Omada) (site : Option String)
    (clock : Nat) (resp : HttpResponse) : Request × Except PyExc Json :=
  om.get ("/sites/" ++ resolveSite om site ++ "/setting/profiles/timeranges")
    none none none clock resp

/-- Omada.getWirelessGroups (src/omada.py lines 292-299): GET the wlans path
and return result[data]. -/
def Omada.getWirelessGroups (om : Omada) (site : Option String)
    (clock : Nat) (resp : HttpResponse) : Request × Except PyExc Json :=
  let call := om.get ("/sites/" ++ resolveSite om site ++ "/setting/wlans")
    none none none clock resp
  (call.1, unwrapData call.2)

/-- Omada.getWirelessNetworks (src/omada.py lines 306-313): GET the ssids path
of the group and return result[data]. -/
def Omada.getWirelessNetworks (om : Omada) (group : String) (site : Option String)
    (clock : Nat) (resp : HttpResponse) : Request × Except PyExc Json :=
  let call := om.get ("/sites/" ++ resolveSite om site ++ "/setting/wlans/"
      ++ group ++ "/ssids")
    none none none clock resp
  (call.1, unwrapData call.2)

/-! ### Facts about key lookup, membership and filtering -/

theorem lookupKey_none_of_hasKeyB_false (k : String) (fs : List (String × Json))
    (h : hasKeyB k fs = false) : lookupKey k fs = none := by
  induction fs with
  | nil => rfl
  | cons p rest ih =>
    obtain ⟨k2, v⟩ := p
    simp only [hasKeyB, List.any_cons, Bool.or_eq_false_iff, beq_eq_false_iff_ne, ne_eq] at h
    obtain ⟨h1, h2⟩ := h
    simp only [lookupKey, if_neg h1]
    exact ih h2

theorem hasKeyB_false_of_lookupKey_none (k : String) (fs : List (String × Json))
    (h : lookupKey k fs = none) : hasKeyB k fs = false := by
  induction fs with
  | nil => rfl
  | cons p rest ih =>
    obtain ⟨k2, v⟩ := p
    by_cases hk : k2 = k
    · simp [lookupKey, hk] at h
    · simp only [lookupKey, if_neg hk] at h
      have h2 := ih h
      simp only [hasKeyB, List.any_cons, Bool.or_eq_false_iff]
      exact ⟨beq_eq_false_iff_ne.mpr hk, h2⟩

theorem hasKeyB_true_of_lookupKey (k : String) (fs : List (String × Json)) (v : Json)
    (h : lookupKey k fs = some v) : hasKeyB k fs = true := by
  induction fs with
  | nil => simp [lookupKey] at h
  | cons p rest ih =>
    obtain ⟨k2, v2⟩ := p
    by_cases hk : k2 = k
    · simp [hasKeyB, List.any_cons, hk]
    · simp only [lookupKey, if_neg hk] at h
      have h2 := ih h
      simp only [hasKeyB, List.any_cons, Bool.or_eq_true]
      exact Or.inr h2

theorem lookupKey_filter_self (k : String) (fs : List (String × Json)) :
    lookupKey k (fs.filter (fun p => !(p.1 == k))) = none := by
  induction fs with
  | nil => rfl
  | cons p rest ih =>
    obtain ⟨k2, v⟩ := p
    by_cases hk : k2 = k
    · simpa [List.filter_cons, hk] using ih
    · simp [List.filter_cons, hk, lookupKey, ih]

theorem lookupKey_filter_ne (k k2 : String) (fs : List (String × Json)) (h : k2 ≠ k) :
    lookupKey k2 (fs.filter (fun p => !(p.1 == k))) = lookupKey k2 fs := by
  induction fs with
  | nil => rfl
  | cons p rest ih =>
    obtain ⟨k3, v⟩ := p
    by_cases hk : k3 = k
    · subst hk
      simp only [List.filter_cons, beq_self_eq_true, Bool.not_true, if_neg Bool.false_ne_true]
      rw [ih]
      simp only [lookupKey, if_neg (fun hh : k3 = k2 => h hh.symm)]
    · simp only [List.filter_cons]
      rw [if_pos (by simp [hk])]
      simp only [lookupKey, ih]

theorem filter_eq_self_of_hasKeyB_false (k : String) (fs : List (String × Json))
    (h : hasKeyB k fs = false) : fs.filter (fun p => !(p.1 == k)) = fs := by
  induction fs with
  | nil => rfl
  | cons p rest ih =>
    obtain ⟨k2, v⟩ := p
    simp only [hasKeyB, List.any_cons, Bool.or_eq_false_iff] at h
    obtain ⟨h1, h2⟩ := h
    simp [List.filter_cons, h1, ih h2]

theorem lookupKey_sizeOf_lt (k : String) (fs : List (String × Json)) (v : Json)
    (h : lookupKey k fs = some v) : sizeOf v < sizeOf (Json.obj fs) := by
  induction fs with
  | nil => simp [lookupKey] at h
  | cons p rest ih =>
    obtain ⟨k2, v2⟩ := p
    by_cases hk : k2 = k
    · simp only [lookupKey, if_pos hk] at h
      injection h with h
      subst h
      simp only [Json.obj.sizeOf_spec, List.cons.sizeOf_spec, Prod.mk.sizeOf_spec]
      omega
    · simp only [lookupKey, if_neg hk] at h
      have hlt := ih h
      simp only [Json.obj.sizeOf_spec, List.cons.sizeOf_spec, Prod.mk.sizeOf_spec] at *
      omega

/-! ### Facts about the envelope handling and the request primitives -/

theorem handleResponse_success_out (body : Json)
    (hec : body.getKey "errorCode" = some (Json.num 0)) :
    handleResponse body = .ok (resultOrNone body) := by
  cases body <;> simp [Json.getKey] at hec
  case obj fs =>
    simp [handleResponse, pyGetItem, hec, pyEqZero]

theorem handleResponse_failure (fs : List (String × Json)) (n : Int) (msgOpt : Option String)
    (hec : lookupKey "errorCode" fs = some (Json.num n)) (hn : n ≠ 0)
    (hmsg : lookupKey "msg" fs = Option.map Json.str msgOpt) :
    handleResponse (Json.obj fs)
      = .error (.omada ⟨Json.num n, Option.map (fun s => "\"" ++ s ++ "\"") msgOpt⟩) := by
  have hEC : hasKeyB "errorCode" fs = true := hasKeyB_true_of_lookupKey _ _ _ hec
  cases msgOpt with
  | none =>
    have hM : hasKeyB "msg" fs = false := hasKeyB_false_of_lookupKey_none _ _ (by simpa using hmsg)
    simp [handleResponse, pyGetItem, hec, pyEqZero, hn, OmadaErrorData.init, pyContains, hEC, hM]
  | some s =>
    have hM : hasKeyB "msg" fs = true := hasKeyB_true_of_lookupKey _ _ _ (by simpa using hmsg)
    simp at hmsg
    simp [handleResponse, pyGetItem, hec, pyEqZero, hn, OmadaErrorData.init, pyContains, hEC, hM,
      hmsg]

theorem handleResponse_ok_inv (body r : Json) (h : handleResponse body = .ok r) :
    r = resultOrNone body := by
  unfold handleResponse at h
  split at h
  · simp at h
  · split at h
    · simp at h
      exact h.symm
    · split at h <;> simp at h

theorem handleResponse_ok_ne_body (body r : Json)
    (h : handleResponse body = .ok r) : r ≠ body := by
  have hr := handleResponse_ok_inv body r h
  cases body with
  | obj fs =>
    subst hr
    unfold resultOrNone
    cases hres : Json.getKey (Json.obj fs) "result" with
    | none => simp
    | some v =>
      show v ≠ Json.obj fs
      have hlt := lookupKey_sizeOf_lt "result" fs v (by simpa [Json.getKey] using hres)
      intro hh
      rw [hh] at hlt
      exact lt_irrefl _ hlt
  | null => simp [handleResponse, pyGetItem] at h
  | bool b => simp [handleResponse, pyGetItem] at h
  | num n => simp [handleResponse, pyGetItem] at h
  | str s => simp [handleResponse, pyGetItem] at h
  | arr xs => simp [handleResponse, pyGetItem] at h

theorem sendRequest_out (om : Omada) (m : Method) (path : String)
    (params : Option (List (String × Json))) (data jsonArg : Option Json)
    (clock : Nat) (resp : HttpResponse) (hst : resp.status < 400) :
    (sendRequest om m path params data jsonArg clock resp).2 = handleResponse resp.body := by
  simp [sendRequest, Nat.not_le.mpr hst]

theorem sendRequest_params_inject (om : Omada) (tok : Json) (m : Method) (path : String)
    (data jsonArg : Option Json) (clock : Nat) (resp : HttpResponse)
    (htok : om.token = some tok) :
    (sendRequest om m path none data jsonArg clock resp).1.params
      = some [("token", tok), ("_", Json.num (timestamp clock))] := by
  simp [sendRequest, htok]

theorem sendRequest_request (om : Omada) (m : Method) (path : String)
    (params : Option (List (String × Json))) (data jsonArg : Option Json)
    (clock : Nat) (resp : HttpResponse) :
    (sendRequest om m path params data jsonArg clock resp).1
      = ⟨m, om.url_for path,
          (match params, om.token with
           | none, some tok => some [("token", tok), ("_", Json.num (timestamp clock))]
           | p, _ => p),
          data, jsonArg⟩ := rfl

theorem pyContains_false_getKey (v : Json) (k : String)
    (h : pyContains v k = .ok false) : v.getKey k = none := by
  cases v <;> simp [pyContains, Json.getKey] at h ⊢
  exact lookupKey_none_of_hasKeyB_false _ _ h

theorem pyDelKey_getKey (v r : Json) (k : String)
    (h : pyDelKey v k = .ok r) : r.getKey k = none := by
  cases v <;> simp [pyDelKey] at h
  subst h
  simp [Json.getKey, lookupKey_filter_self]

theorem stripBeaconControl_getKey (x r : Json)
    (h : stripBeaconControl x = .ok r) : r.getKey "beaconControl" = none := by
  unfold stripBeaconControl at h
  cases hc : pyContains x "beaconControl" with
  | error e => rw [hc] at h; simp at h
  | ok b =>
    rw [hc] at h
    cases b with
    | true =>
      simp only [] at h
      exact pyDelKey_getKey x r _ h
    | false =>
      simp at h
      subst h
      exact pyContains_false_getKey x _ hc

/-! ### The claims -/

/-- Claim C1: for every parsed response envelope whose errorCode equals 0, each of
the request primitives get, post and patch returns exactly the result value of
the envelope, returns an empty result (Json.null, the embedding of Python None)
when the result key is absent, and never returns the raw envelope. -/
theorem claim1_success_returns_result (om : Omada) (path : String)
    (params : Option (List (String × Json))) (data jsonArg : Option Json)
    (clock : Nat) (resp : HttpResponse)
    (hst : resp.status < 400)
    (hec : resp.body.getKey "errorCode" = some (Json.num 0)) :
    ((om.get path params data jsonArg clock resp).2 = .ok (resultOrNone resp.body)
      ∧ (om.post path params data jsonArg clock resp).2 = .ok (resultOrNone resp.body)
      ∧ (om.patch path params data jsonArg clock resp).2 = .ok (resultOrNone resp.body))
    ∧ (∀ r : Json, resp.body.getKey "result" = some r → resultOrNone resp.body = r)
    ∧ (resp.body.getKey "result" = none → resultOrNone resp.body = Json.null)
    ∧ (∀ r : Json,
        ((om.get path params data jsonArg clock resp).2 = .ok r
          ∨ (om.post path params data jsonArg clock resp).2 = .ok r
          ∨ (om.patch path params data jsonArg clock resp).2 = .ok r)
        → r ≠ resp.body) := by
  have hout : handleResponse resp.body = .ok (resultOrNone resp.body) :=
    handleResponse_success_out resp.body hec
  have hget := sendRequest_out om .get path params data jsonArg clock resp hst
  have hpost := sendRequest_out om .post path params data jsonArg clock resp hst
  have hpatch := sendRequest_out om .patch path params data jsonArg clock resp hst
  refine ⟨⟨hget.trans hout, hpost.trans hout, hpatch.trans hout⟩, ?_, ?_, ?_⟩
  · intro r hr
    simp [resultOrNone, hr]
  · intro hr
    simp [resultOrNone, hr]
  · intro r hr
    have hhr : handleResponse resp.body = .ok r := by
      rcases hr with h | h | h
      · exact hget.symm.trans h
      · exact hpost.symm.trans h
      · exact hpatch.symm.trans h
    exact handleResponse_ok_ne_body resp.body r hhr

theorem claim1_success_returns_result_witness :
    ((({ config := none, baseurl := "https://h", site := "Default", verify := true,
         warnings := true, token := none } : Omada).get "/p" none none none 0
        ⟨200, Json.obj [("errorCode", Json.num 0), ("result", Json.num 7)]⟩).2
      = Except.ok (Json.num 7))
    ∧ Json.num 7 ≠ Json.obj [("errorCode", Json.num 0), ("result", Json.num 7)] := by
  have h := claim1_success_returns_result
    { config := none, baseurl := "https://h", site := "Default", verify := true,
      warnings := true, token := none } "/p" none none none 0
    ⟨200, Json.obj [("errorCode", Json.num 0), ("result", Json.num 7)]⟩
    (by decide) rfl
  exact ⟨h.1.1, h.2.2.2 (Json.num 7) (Or.inl h.1.1)⟩

/-- Claim C2, counterexample: on the envelope with errorCode -1001 and msg "fail"
the raised OmadaError carries msg "fail" surrounded by double quote characters,
not the same msg string as the envelope. -/
theorem claim2_msg_quoted_counterexample :
    ((({ config := none, baseurl := "https://h", site := "Default", verify := true,
         warnings := true, token := none } : Omada).get "/p" none none none 0
        ⟨200, Json.obj [("errorCode", Json.num (-1001)), ("msg", Json.str "fail")]⟩).2
      = Except.error (PyExc.omada ⟨Json.num (-1001), some "\"fail\""⟩))
    ∧ ∀ e : OmadaErrorData,
        ((({ config := none, baseurl := "https://h", site := "Default", verify := true,
             warnings := true, token := none } : Omada).get "/p" none none none 0
            ⟨200, Json.obj [("errorCode", Json.num (-1001)), ("msg", Json.str "fail")]⟩).2
          = Except.error (PyExc.omada e))
        → e.msg ≠ some "fail" := by
  refine ⟨rfl, ?_⟩
  intro e h
  have h2 : (Except.error (PyExc.omada ⟨Json.num (-1001), some "\"fail\""⟩) : Except PyExc Json)
      = Except.error (PyExc.omada e) := h
  injection h2 with h3
  injection h3 with h4
  rw [← h4]
  decide

/-- Claim C2 as amended: for every parsed envelope whose errorCode is a nonzero
integer, the request primitives raise an OmadaError carrying the same integer
errorCode, and a msg equal to the msg string of the envelope surrounded by
double quote characters (no msg when the envelope has none). -/
theorem claim2_error_translation (om : Omada) (path : String)
    (params : Option (List (String × Json))) (data jsonArg : Option Json)
    (clock : Nat) (resp : HttpResponse) (fs : List (String × Json)) (n : Int)
    (msgOpt : Option String)
    (hbody : resp.body = Json.obj fs)
    (hst : resp.status < 400)
    (hec : lookupKey "errorCode" fs = some (Json.num n)) (hn : n ≠ 0)
    (hmsg : lookupKey "msg" fs = Option.map Json.str msgOpt) :
    ((om.get path params data jsonArg clock resp).2
        = .error (.omada ⟨Json.num n, Option.map (fun s => "\"" ++ s ++ "\"") msgOpt⟩))
    ∧ ((om.post path params data jsonArg clock resp).2
        = .error (.omada ⟨Json.num n, Option.map (fun s => "\"" ++ s ++ "\"") msgOpt⟩))
    ∧ ((om.patch path params data jsonArg clock resp).2
        = .error (.omada ⟨Json.num n, Option.map (fun s => "\"" ++ s ++ "\"") msgOpt⟩)) := by
  have hfail := handleResponse_failure fs n msgOpt hec hn hmsg
  have hb : handleResponse resp.body
      = .error (.omada ⟨Json.num n, Option.map (fun s => "\"" ++ s ++ "\"") msgOpt⟩) := by
    rw [hbody]; exact hfail
  exact ⟨(sendRequest_out om .get path params data jsonArg clock resp hst).trans hb,
         (sendRequest_out om .post path params data jsonArg clock resp hst).trans hb,
         (sendRequest_out om .patch path params data jsonArg clock resp hst).trans hb⟩

theorem claim2_error_translation_witness :
    ((({ config := none, baseurl := "https://h", site := "Default", verify := true,
         warnings := true, token := none } : Omada).get "/q" none none none 0
        ⟨200, Json.obj [("errorCode", Json.num 5), ("msg", Json.str "oops")]⟩).2
      = Except.error (PyExc.omada ⟨Json.num 5, some "\"oops\""⟩)) := by
  have h := claim2_error_translation
    { config := none, baseurl := "https://h", site := "Default", verify := true,
      warnings := true, token := none } "/q" none none none 0
    ⟨200, Json.obj [("errorCode", Json.num 5), ("msg", Json.str "oops")]⟩
    [("errorCode", Json.num 5), ("msg", Json.str "oops")] 5 (some "oops")
    rfl (by decide) rfl (by decide) rfl
  exact h.1

/-- Claim C3: when no explicit query parameters are given and the stored token is
not None, each of get, post and patch issues its request with the query
parameters being exactly the token (equal to the stored token) and the
underscore key bound to the integer millisecond timestamp of the clock. -/
theorem claim3_token_timestamp_injection (om : Omada) (tok : Json) (path : String)
    (data jsonArg : Option Json) (clock : Nat) (resp : HttpResponse)
    (htok : om.token = some tok) :
    ((om.get path none data jsonArg clock resp).1.params
        = some [("token", tok), ("_", Json.num (timestamp clock))])
    ∧ ((om.post path none data jsonArg clock resp).1.params
        = some [("token", tok), ("_", Json.num (timestamp clock))])
    ∧ ((om.patch path none data jsonArg clock resp).1.params
        = some [("token", tok), ("_", Json.num (timestamp clock))]) :=
  ⟨sendRequest_params_inject om tok .get path data jsonArg clock resp htok,
   sendRequest_params_inject om tok .post path data jsonArg clock resp htok,
   sendRequest_params_inject om tok .patch path data jsonArg clock resp htok⟩

theorem claim3_token_timestamp_injection_witness :
    ((({ config := none, baseurl := "https://h", site := "Default", verify := true,
         warnings := true, token := some (Json.str "tk") } : Omada).get "/p"
        none none none 12345678 ⟨200, Json.null⟩).1.params
      = some [("token", Json.str "tk"), ("_", Json.num 12345)]) := by
  have h := claim3_token_timestamp_injection
    { config := none, baseurl := "https://h", site := "Default", verify := true,
      warnings := true, token := some (Json.str "tk") } (Json.str "tk") "/p"
    none none 12345678 ⟨200, Json.null⟩ rfl
  exact h.1

/-- Claim C4: every result returned by getSiteSettings lacks the beaconControl
key, and whenever setSiteSettings issues its PATCH request, the JSON body it
sends lacks the beaconControl key. -/
theorem claim4_beaconControl_never_sent (om : Omada) (site : Option String)
    (clock : Nat) (resp : HttpResponse) (store : Store) (ref : Nat)
    (site2 : Option String) (clock2 : Nat) (resp2 : HttpResponse) :
    (∀ r : Json, (om.getSiteSettings site clock resp).2 = .ok r
        → r.getKey "beaconControl" = none)
    ∧ (∀ (st2 : Store) (req : Request) (out : Except PyExc Json) (body : Json),
        om.setSiteSettings store ref site2 clock2 resp2 = (st2, some req, out)
        → req.jsonBody = some body
        → body.getKey "beaconControl" = none) := by
  constructor
  · intro r h
    simp only [Omada.getSiteSettings] at h
    split at h
    · exact absurd h (by simp)
    · exact stripBeaconControl_getKey _ r h
  · intro st2 req out body heq hbody
    unfold Omada.setSiteSettings at heq
    cases hstore : store ref with
    | none =>
      rw [hstore] at heq
      simp at heq
    | some settings =>
      rw [hstore] at heq
      simp only [] at heq
      cases hc : pyContains settings "beaconControl" with
      | error e => rw [hc] at heq; simp at heq
      | ok b =>
        rw [hc] at heq
        cases b with
        | true =>
          simp only [] at heq
          cases hd : pyDelKey settings "beaconControl" with
          | error e => rw [hd] at heq; simp at heq
          | ok settings2 =>
            rw [hd] at heq
            simp only [Prod.mk.injEq, Option.some.injEq] at heq
            obtain ⟨h1, h2, h3⟩ := heq
            rw [← h2] at hbody
            have hjson : (om.patch ("/sites/" ++ resolveSite om site2 ++ "/setting")
                none none (some settings2) clock2 resp2).1.jsonBody = some settings2 := rfl
            rw [hjson] at hbody
            injection hbody with hb2
            subst hb2
            exact pyDelKey_getKey settings _ _ hd
        | false =>
          simp only [] at heq
          simp only [Prod.mk.injEq, Option.some.injEq] at heq
          obtain ⟨h1, h2, h3⟩ := heq
          rw [← h2] at hbody
          have hjson : (om.patch ("/sites/" ++ resolveSite om site2 ++ "/setting")
              none none (some settings) clock2 resp2).1.jsonBody = some settings := rfl
          rw [hjson] at hbody
          injection hbody with hb2
          subst hb2
          exact pyContains_false_getKey settings _ hc

theorem claim4_beaconControl_never_sent_witness :
    (Json.obj [("led", Json.bool false)]).getKey "beaconControl" = none
    ∧ (Json.obj [("led", Json.num 1)]).getKey "beaconControl" = none := by
  have h := claim4_beaconControl_never_sent
    { config := none, baseurl := "https://h", site := "Default", verify := true,
      warnings := true, token := none } none 0
    ⟨200, Json.obj [("errorCode", Json.num 0),
      ("result", Json.obj [("beaconControl", Json.bool true), ("led", Json.bool false)])]⟩
    (fun a => if a = 0 then some (Json.obj [("beaconControl", Json.bool true),
      ("led", Json.num 1)]) else none) 0 none 0
    ⟨200, Json.obj [("errorCode", Json.num 0)]⟩
  constructor
  · exact h.1 (Json.obj [("led", Json.bool false)]) rfl
  · exact h.2
      (fun a => if a = 0 then some (Json.obj [("led", Json.num 1)])
        else if a = 0 then some (Json.obj [("beaconControl", Json.bool true),
          ("led", Json.num 1)]) else none)
      ⟨Method.patch, "https://h/api/v2/sites/Default/setting", none, none,
        some (Json.obj [("led", Json.num 1)])⟩
      (Except.ok Json.null)
      (Json.obj [("led", Json.num 1)])
      rfl rfl

/-- Claim C5, counterexample: with a configuration loaded that holds neither a
username nor a password option, and both arguments omitted, login raises no
error at all; it sends a login request whose body binds both credentials to
JSON null, refuting the claim that a login request with missing credentials is
never sent. -/
theorem claim5_null_credentials_counterexample :
    cfgGet [("baseurl", "https://c")] "username" = none
    ∧ cfgGet [("baseurl", "https://c")] "password" = none
    ∧ ((({ config := some [("baseurl", "https://c")], baseurl := "https://c",
           site := "Default", verify := true, warnings := true, token := none } : Omada).login
          none none 0 ⟨200, Json.obj [("errorCode", Json.num 0),
            ("result", Json.obj [("token", Json.str "t")])]⟩).1
        = some ⟨Method.post, "https://c/api/v2/login", none, none,
            some (Json.obj [("username", Json.null), ("password", Json.null)])⟩) :=
  ⟨rfl, rfl, rfl⟩

/-- Claim C5 as amended: when both credential arguments are omitted, login falls
back to the configured credentials; it raises TypeError exactly when no
configuration was loaded; when a configuration is loaded it always sends the
login request, a missing option being sent as JSON null. -/
theorem claim5_login_fallback (om : Omada) (clock : Nat) (resp : HttpResponse)
    (cfg : List (String × String)) :
    (om.config = none →
      om.login none none clock resp
        = (none, .error (.typeError "username and password cannot be None")))
    ∧ (om.config = some cfg →
        (om.login none none clock resp).1
          = some ⟨Method.post, om.url_for "/login",
              (match om.token with
               | some tok => some [("token", tok), ("_", Json.num (timestamp clock))]
               | none => none),
              none,
              some (Json.obj [("username", optStr (cfgGet cfg "username")),
                              ("password", optStr (cfgGet cfg "password"))])⟩) := by
  obtain ⟨cf, bu, si, ve, wa, tk⟩ := om
  constructor
  · intro hc
    have hc2 : cf = none := hc
    subst hc2
    rfl
  · intro hc
    have hc2 : cf = some cfg := hc
    subst hc2
    cases tk <;> rfl

theorem claim5_login_fallback_witness :
    ((({ config := none, baseurl := "https://h", site := "Default", verify := true,
         warnings := true, token := none } : Omada).login none none 0 ⟨200, Json.null⟩)
      = (none, Except.error (PyExc.typeError "username and password cannot be None")))
    ∧ ((({ config := some [("username", "u"), ("password", "pw")], baseurl := "https://h",
           site := "Default", verify := true, warnings := true, token := none } : Omada).login
          none none 0 ⟨200, Json.null⟩).1
        = some ⟨Method.post, "https://h/api/v2/login", none, none,
            some (Json.obj [("username", Json.str "u"), ("password", Json.str "pw")])⟩) := by
  constructor
  · exact (claim5_login_fallback
      { config := none, baseurl := "https://h", site := "Default", verify := true,
        warnings := true, token := none } 0 ⟨200, Json.null⟩ []).1 rfl
  · exact (claim5_login_fallback
      { config := some [("username", "u"), ("password", "pw")], baseurl := "https://h",
        site := "Default", verify := true, warnings := true, token := none } 0
      ⟨200, Json.null⟩ [("username", "u"), ("password", "pw")]).2 rfl

/-- Claim C6: after a login whose envelope has errorCode 0 and whose result
carries a token, the client stores that token, and a subsequent getCurrentUser
call with no explicit parameters injects the stored token (together with the
millisecond timestamp) as query parameters and returns the user object taken
from the result of its envelope. -/
theorem claim6_login_then_current_user (om : Omada) (u p : String)
    (clock1 clock2 : Nat) (resp1 resp2 : HttpResponse) (r1 tok user : Json)
    (h1st : resp1.status < 400)
    (h1ec : resp1.body.getKey "errorCode" = some (Json.num 0))
    (h1r : resp1.body.getKey "result" = some r1)
    (h1tok : pyGetItem r1 "token" = .ok tok)
    (h2st : resp2.status < 400)
    (h2ec : resp2.body.getKey "errorCode" = some (Json.num 0))
    (h2r : resp2.body.getKey "result" = some user) :
    ((om.login (some u) (some p) clock1 resp1).2
        = .ok ({ om with token := some tok }, r1))
    ∧ ({ om with token := some tok } : Omada).token = some tok
    ∧ (({ om with token := some tok } : Omada).getCurrentUser clock2 resp2).1.params
        = some [("token", tok), ("_", Json.num (timestamp clock2))]
    ∧ (({ om with token := some tok } : Omada).getCurrentUser clock2 resp2).2
        = .ok user := by
  have hres1 : resultOrNone resp1.body = r1 := by simp [resultOrNone, h1r]
  have hres2 : resultOrNone resp2.body = user := by simp [resultOrNone, h2r]
  have hpost : (om.post "/login" none none
      (some (Json.obj [("username", optStr (some u)), ("password", optStr (some p))]))
      clock1 resp1).2 = .ok r1 :=
    (sendRequest_out om .post "/login" none none
        (some (Json.obj [("username", optStr (some u)), ("password", optStr (some p))]))
        clock1 resp1 h1st).trans
      ((handleResponse_success_out resp1.body h1ec).trans (by rw [hres1]))
  refine ⟨?_, rfl, ?_, ?_⟩
  · simp only [Omada.login]
    rw [hpost]
    simp only []
    rw [h1tok]
  · exact sendRequest_params_inject { om with token := some tok } tok .get "/users/current"
      none none clock2 resp2 rfl
  · exact (sendRequest_out { om with token := some tok } .get "/users/current"
        none none none clock2 resp2 h2st).trans
      ((handleResponse_success_out resp2.body h2ec).trans (by rw [hres2]))

theorem claim6_login_then_current_user_witness :
    ((({ config := none, baseurl := "https://h", site := "Default", verify := true,
         warnings := true, token := none } : Omada).login (some "u") (some "pw") 0
        ⟨200, Json.obj [("errorCode", Json.num 0),
          ("result", Json.obj [("token", Json.str "t")])]⟩).2
      = Except.ok ((⟨none, "https://h", "Default", true, true,
            some (Json.str "t")⟩ : Omada),
          Json.obj [("token", Json.str "t")]))
    ∧ ((({ config := none, baseurl := "https://h", site := "Default", verify := true,
           warnings := true, token := some (Json.str "t") } : Omada).getCurrentUser 2000
          ⟨200, Json.obj [("errorCode", Json.num 0),
            ("result", Json.obj [("name", Json.str "admin")])]⟩).1.params
        = some [("token", Json.str "t"), ("_", Json.num 2)])
    ∧ ((({ config := none, baseurl := "https://h", site := "Default", verify := true,
           warnings := true, token := some (Json.str "t") } : Omada).getCurrentUser 2000
          ⟨200, Json.obj [("errorCode", Json.num 0),
            ("result", Json.obj [("name", Json.str "admin")])]⟩).2
        = Except.ok (Json.obj [("name", Json.str "admin")])) := by
  have h := claim6_login_then_current_user
    { config := none, baseurl := "https://h", site := "Default", verify := true,
      warnings := true, token := none } "u" "pw" 0 2000
    ⟨200, Json.obj [("errorCode", Json.num 0),
      ("result", Json.obj [("token", Json.str "t")])]⟩
    ⟨200, Json.obj [("errorCode", Json.num 0),
      ("result", Json.obj [("name", Json.str "admin")])]⟩
    (Json.obj [("token", Json.str "t")]) (Json.str "t")
    (Json.obj [("name", Json.str "admin")])
    (by decide) rfl rfl rfl (by decide) rfl rfl
  exact ⟨h.1, h.2.2.1, h.2.2.2⟩

/-- Claim C7, proved of the dedented model of getSiteClients (the literal source
body is rejected by the Python parser, see the doc comment of
Omada.getSiteClients): every getSiteClients call issues a GET request whose URL
query string is exactly currentPageSize=999 with currentPage=1 and
filters.active=true, for an explicit site and for the default site alike. -/
theorem claim7_site_clients_query (om : Omada) (s : String) (clock : Nat)
    (resp : HttpResponse) :
    (om.getSiteClients (some s) clock resp).1.method = Method.get
    ∧ (om.getSiteClients (some s) clock resp).1.url
        = (om.baseurl ++ "/api/v2" ++ "/sites/" ++ s ++ "/clients")
            ++ "?currentPageSize=999&currentPage=1&filters.active=true"
    ∧ (om.getSiteClients none clock resp).1.url
        = (om.baseurl ++ "/api/v2" ++ "/sites/" ++ om.site ++ "/clients")
            ++ "?currentPageSize=999&currentPage=1&filters.active=true" := by
  have hq : "/clients?currentPageSize=999&currentPage=1&filters.active=true"
      = "/clients" ++ "?currentPageSize=999&currentPage=1&filters.active=true" := rfl
  refine ⟨rfl, ?_, ?_⟩
  · show om.baseurl ++ Omada.ApiPath
        ++ ("/sites/" ++ s
            ++ "/clients?currentPageSize=999&currentPage=1&filters.active=true")
      = _
    rw [hq]
    simp only [Omada.ApiPath, String.append_assoc]
  · show om.baseurl ++ Omada.ApiPath
        ++ ("/sites/" ++ om.site
            ++ "/clients?currentPageSize=999&currentPage=1&filters.active=true")
      = _
    rw [hq]
    simp only [Omada.ApiPath, String.append_assoc]

/-- Claim C8, counterexample: getSiteSettings does not return the unwrapped
result directly; on a result holding a beaconControl key it returns the result
minus that key. -/
theorem claim8_settings_not_direct_counterexample :
    ((({ config := none, baseurl := "https://h", site := "Default", verify := true,
         warnings := true, token := none } : Omada).getSiteSettings none 0
        ⟨200, Json.obj [("errorCode", Json.num 0),
          ("result", Json.obj [("beaconControl", Json.bool true),
            ("led", Json.bool false)])]⟩).2
      = Except.ok (Json.obj [("led", Json.bool false)]))
    ∧ ((({ config := none, baseurl := "https://h", site := "Default", verify := true,
           warnings := true, token := none } : Omada).getSiteSettings none 0
          ⟨200, Json.obj [("errorCode", Json.num 0),
            ("result", Json.obj [("beaconControl", Json.bool true),
              ("led", Json.bool false)])]⟩).2
        ≠ Except.ok (Json.obj [("beaconControl", Json.bool true),
            ("led", Json.bool false)])) := by
  refine ⟨rfl, ?_⟩
  intro h
  have h2 : (Except.ok (Json.obj [("led", Json.bool false)]) : Except PyExc Json)
      = Except.ok (Json.obj [("beaconControl", Json.bool true),
          ("led", Json.bool false)]) := h
  injection h2 with h3
  injection h3 with h4
  simp at h4

/-- Claim C8 as amended: on a success envelope with result r, getSiteGroups,
getWirelessGroups and getWirelessNetworks return r[data] (one extra unwrapping
level); getPortalCandidates, getRadiusProfiles, getScenarios, getSiteDevices,
getSiteClients and getTimeRanges return r directly; getSiteSettings returns r
with the beaconControl key stripped (and no data indexing). -/
theorem claim8_unwrap_table (om : Omada) (site : Option String) (gty : Option Int)
    (group : String) (clock : Nat) (resp : HttpResponse) (r : Json)
    (hst : resp.status < 400)
    (hec : resp.body.getKey "errorCode" = some (Json.num 0))
    (hr : resp.body.getKey "result" = some r) :
    (om.getSiteGroups site gty clock resp).2 = pyGetItem r "data"
    ∧ (om.getWirelessGroups site clock resp).2 = pyGetItem r "data"
    ∧ (om.getWirelessNetworks group site clock resp).2 = pyGetItem r "data"
    ∧ (om.getPortalCandidates site clock resp).2 = .ok r
    ∧ (om.getRadiusProfiles site clock resp).2 = .ok r
    ∧ (om.getScenarios clock resp).2 = .ok r
    ∧ (om.getSiteDevices site clock resp).2 = .ok r
    ∧ (om.getSiteClients site clock resp).2 = .ok r
    ∧ (om.getTimeRanges site clock resp).2 = .ok r
    ∧ (om.getSiteSettings site clock resp).2 = stripBeaconControl r := by
  have hok : ∀ path : String,
      (om.get path none none none clock resp).2 = .ok r := fun path =>
    (sendRequest_out om .get path none none none clock resp hst).trans
      ((handleResponse_success_out resp.body hec).trans (by simp [resultOrNone, hr]))
  refine ⟨?_, ?_, ?_, hok _, hok _, hok _, hok _, hok _, hok _, ?_⟩
  · simp only [Omada.getSiteGroups]
    rw [hok _]
    rfl
  · simp only [Omada.getWirelessGroups]
    rw [hok _]
    rfl
  · simp only [Omada.getWirelessNetworks]
    rw [hok _]
    rfl
  · simp only [Omada.getSiteSettings]
    rw [hok _]

theorem claim8_unwrap_table_witness :
    ((({ config := none, baseurl := "https://h", site := "Default", verify := true,
         warnings := true, token := none } : Omada).getSiteGroups none none 0
        ⟨200, Json.obj [("errorCode", Json.num 0),
          ("result", Json.obj [("data", Json.arr [Json.num 1]),
            ("extra", Json.num 2)])]⟩).2
      = Except.ok (Json.arr [Json.num 1]))
    ∧ ((({ config := none, baseurl := "https://h", site := "Default", verify := true,
           warnings := true, token := none } : Omada).getScenarios 0
          ⟨200, Json.obj [("errorCode", Json.num 0),
            ("result", Json.obj [("data", Json.arr [Json.num 1]),
              ("extra", Json.num 2)])]⟩).2
        = Except.ok (Json.obj [("data", Json.arr [Json.num 1]),
            ("extra", Json.num 2)]))
    ∧ ((({ config := none, baseurl := "https://h", site := "Default", verify := true,
           warnings := true, token := none } : Omada).getSiteSettings none 0
          ⟨200, Json.obj [("errorCode", Json.num 0),
            ("result", Json.obj [("data", Json.arr [Json.num 1]),
              ("extra", Json.num 2)])]⟩).2
        = Except.ok (Json.obj [("data", Json.arr [Json.num 1]),
            ("extra", Json.num 2)])) := by
  have h := claim8_unwrap_table
    { config := none, baseurl := "https://h", site := "Default", verify := true,
      warnings := true, token := none } none none "g1" 0
    ⟨200, Json.obj [("errorCode", Json.num 0),
      ("result", Json.obj [("data", Json.arr [Json.num 1]), ("extra", Json.num 2)])]⟩
    (Json.obj [("data", Json.arr [Json.num 1]), ("extra", Json.num 2)])
    (by decide) rfl rfl
  exact ⟨h.1, h.2.2.2.2.2.1, h.2.2.2.2.2.2.2.2.2⟩

/-- Claim C9, counter-evaluation: logout forwards the result value of its
envelope like any POST, so a logout envelope carrying a result yields that
value and not Python None; this contradicts the documented always-None
return of logout. -/
theorem claim9_logout_result_forwarded :
    ((({ config := none, baseurl := "https://h", site := "Default", verify := true,
         warnings := true, token := none } : Omada).logout 0
        ⟨200, Json.obj [("errorCode", Json.num 0), ("result", Json.num 42)]⟩).2
      = Except.ok (Json.num 42))
    ∧ Json.num 42 ≠ Json.null :=
  ⟨rfl, fun h => Json.noConfusion h⟩

/-- Claim C10: setSiteSettings deletes the beaconControl key from the
caller-supplied settings dict in place: after the call the same reference maps
to the dict with beaconControl removed and every other key bound as before,
and every other reference is untouched. -/
theorem claim10_set_site_settings_in_place (om : Omada) (store : Store) (ref : Nat)
    (fs : List (String × Json)) (site : Option String) (clock : Nat)
    (resp : HttpResponse) (h : store ref = some (Json.obj fs)) :
    ((om.setSiteSettings store ref site clock resp).1 ref
        = some (Json.obj (fs.filter (fun q => !(q.1 == "beaconControl")))))
    ∧ (∀ b : Nat, b ≠ ref → (om.setSiteSettings store ref site clock resp).1 b = store b)
    ∧ lookupKey "beaconControl" (fs.filter (fun q => !(q.1 == "beaconControl"))) = none
    ∧ (∀ k : String, k ≠ "beaconControl" →
        lookupKey k (fs.filter (fun q => !(q.1 == "beaconControl"))) = lookupKey k fs) := by
  refine ⟨?_, ?_, lookupKey_filter_self _ _, fun k hk => lookupKey_filter_ne _ k _ hk⟩
  · unfold Omada.setSiteSettings
    rw [h]
    simp only [pyContains, pyDelKey]
    cases hbc : hasKeyB "beaconControl" fs
    · simp only []
      rw [h, filter_eq_self_of_hasKeyB_false _ _ hbc]
    · simp only []
      simp
  · intro b hb
    unfold Omada.setSiteSettings
    rw [h]
    simp only [pyContains, pyDelKey]
    cases hbc : hasKeyB "beaconControl" fs
    · simp only []
    · simp only []
      simp [hb]

theorem claim10_set_site_settings_in_place_witness :
    ((({ config := none, baseurl := "https://h", site := "Default", verify := true,
         warnings := true, token := none } : Omada).setSiteSettings
        (fun a => if a = 0 then some (Json.obj [("beaconControl", Json.bool true),
          ("led", Json.num 1)]) else none) 0 none 0
        ⟨200, Json.obj [("errorCode", Json.num 0)]⟩).1 0
      = some (Json.obj [("led", Json.num 1)]))
    ∧ ((({ config := none, baseurl := "https://h", site := "Default", verify := true,
           warnings := true, token := none } : Omada).setSiteSettings
          (fun a => if a = 0 then some (Json.obj [("beaconControl", Json.bool true),
            ("led", Json.num 1)]) else none) 0 none 0
          ⟨200, Json.obj [("errorCode", Json.num 0)]⟩).1 1
        = none)
    ∧ lookupKey "beaconControl"
        (List.filter (fun q => !(q.1 == "beaconControl"))
          [("beaconControl", Json.bool true), ("led", Json.num 1)]) = none
    ∧ lookupKey "led"
        (List.filter (fun q => !(q.1 == "beaconControl"))
          [("beaconControl", Json.bool true), ("led", Json.num 1)])
      = some (Json.num 1) := by
  have h := claim10_set_site_settings_in_place
    { config := none, baseurl := "https://h", site := "Default", verify := true,
      warnings := true, token := none }
    (fun a => if a = 0 then some (Json.obj [("beaconControl", Json.bool true),
      ("led", Json.num 1)]) else none) 0
    [("beaconControl", Json.bool true), ("led", Json.num 1)] none 0
    ⟨200, Json.obj [("errorCode", Json.num 0)]⟩ rfl
  exact ⟨h.1, h.2.1 1 (by decide), h.2.2.1, h.2.2.2 "led" (by decide)⟩
